import Mathlib

/-!
Shallow embedding of the polymorphic event container layer of `ruma-events`
(`src/collections/all.rs` and `src/receipt.rs`), together with models of the
external collaborators (the discriminator enumeration `EventType`, the generic
structured-data value, and the leaf event shapes) that the source file uses but
that are not part of the given sources; those are modelled from the spec.
-/

namespace RumaEvents

/-- Model of the generic structured-data value (`serde_json::Value`): a
JSON-like tree with null, booleans, numbers, strings, arrays and objects.
Objects are association lists of field name to value; `serde_json` keeps
object keys unique, so the faithful domain is objects without duplicate keys. -/
inductive JValue where
  | null
  | bool (b : Bool)
  | num (n : Int)
  | str (s : String)
  | arr (elems : List JValue)
  | obj (fields : List (String × JValue))

/-- First-match lookup of a field name in an object's field list. -/
def lookupField : List (String × JValue) → String → Option JValue
  | [], _ => none
  | (k, w) :: rest, key => if k = key then some w else lookupField rest key

/-- Model of `serde_json::Value::get`: field lookup on an object, `none` on
every other kind of value. -/
def JValue.get : JValue → String → Option JValue
  | .obj fields, key => lookupField fields key
  | _, _ => none

/-- Modelled from the spec: the discriminator type `EventType` (external to the
given sources) is an open enumeration mapping known tag strings to typed
members, with a fallback member `Custom` holding any unrecognized string
verbatim.  The catalog of known members and their tag strings is exactly the
one enumerated in `src/collections/all.rs`. -/
inductive EventType where
  | CallAnswer
  | CallCandidates
  | CallHangup
  | CallInvite
  | Presence
  | Receipt
  | RoomAliases
  | RoomAvatar
  | RoomCanonicalAlias
  | RoomCreate
  | RoomGuestAccess
  | RoomHistoryVisibility
  | RoomJoinRules
  | RoomMember
  | RoomMessage
  | RoomName
  | RoomPowerLevels
  | RoomRedaction
  | RoomThirdPartyInvite
  | RoomTopic
  | Tag
  | Typing
  | Custom (tag : String)
deriving DecidableEq, BEq

/-- Modelled from the spec: the tag string each known discriminator member
serializes to (the strings are those documented in `src/collections/all.rs`);
the `Custom` member carries its raw string verbatim. -/
def EventType.toStr : EventType → String
  | .CallAnswer => "m.call.answer"
  | .CallCandidates => "m.call.candidates"
  | .CallHangup => "m.call.hangup"
  | .CallInvite => "m.call.invite"
  | .Presence => "m.presence"
  | .Receipt => "m.receipt"
  | .RoomAliases => "m.room.aliases"
  | .RoomAvatar => "m.room.avatar"
  | .RoomCanonicalAlias => "m.room.canonical_alias"
  | .RoomCreate => "m.room.create"
  | .RoomGuestAccess => "m.room.guest_access"
  | .RoomHistoryVisibility => "m.room.history_visibility"
  | .RoomJoinRules => "m.room.join_rules"
  | .RoomMember => "m.room.member"
  | .RoomMessage => "m.room.message"
  | .RoomName => "m.room.name"
  | .RoomPowerLevels => "m.room.power_levels"
  | .RoomRedaction => "m.room.redaction"
  | .RoomThirdPartyInvite => "m.room.third_party_invite"
  | .RoomTopic => "m.room.topic"
  | .Tag => "m.tag"
  | .Typing => "m.typing"
  | .Custom s => s

/-- Modelled from the spec: parsing a tag string into the discriminator type.
Known tag strings map to their members; this step cannot fail, because every
unrecognized string maps to the `Custom` fallback member. -/
def EventType.fromStr (s : String) : EventType :=
  if s = "m.call.answer" then .CallAnswer
  else if s = "m.call.candidates" then .CallCandidates
  else if s = "m.call.hangup" then .CallHangup
  else if s = "m.call.invite" then .CallInvite
  else if s = "m.presence" then .Presence
  else if s = "m.receipt" then .Receipt
  else if s = "m.room.aliases" then .RoomAliases
  else if s = "m.room.avatar" then .RoomAvatar
  else if s = "m.room.canonical_alias" then .RoomCanonicalAlias
  else if s = "m.room.create" then .RoomCreate
  else if s = "m.room.guest_access" then .RoomGuestAccess
  else if s = "m.room.history_visibility" then .RoomHistoryVisibility
  else if s = "m.room.join_rules" then .RoomJoinRules
  else if s = "m.room.member" then .RoomMember
  else if s = "m.room.message" then .RoomMessage
  else if s = "m.room.name" then .RoomName
  else if s = "m.room.power_levels" then .RoomPowerLevels
  else if s = "m.room.redaction" then .RoomRedaction
  else if s = "m.room.third_party_invite" then .RoomThirdPartyInvite
  else if s = "m.room.topic" then .RoomTopic
  else if s = "m.tag" then .Tag
  else if s = "m.typing" then .Typing
  else .Custom s

/-- Modelled from the spec: `from_value::<EventType>` — the discriminator
parses from a string value (never failing on strings, per §4.1); a non-string
value is a malformed discriminator. -/
def EventType.fromJson : JValue → Except String EventType
  | .str s => .ok (EventType.fromStr s)
  | _ => .error "invalid type for event type"

/-- Modelled from the spec: serializing a discriminator emits its tag string. -/
def EventType.toJson (et : EventType) : JValue := .str et.toStr

/-- Require a field to be present, with any value (an open payload such as
`content`); its absence is the field-level missing-field error. -/
def getAny (v : JValue) (field : String) : Except String JValue :=
  match v.get field with
  | some w => .ok w
  | none => .error ("missing field " ++ field)

/-- Require a field to be present and hold a string. -/
def getString (v : JValue) (field : String) : Except String String :=
  match v.get field with
  | some (.str s) => .ok s
  | some _ => .error ("invalid field " ++ field)
  | none => .error ("missing field " ++ field)

/-- Parse the `type` field of a record as the discriminator type. -/
def getEventType (v : JValue) : Except String EventType :=
  match v.get "type" with
  | some tv => EventType.fromJson tv
  | none => .error "missing field type"

/-- Modelled from the spec: a basic-tier leaf shape carries `content` and
`type` only (§3); the layout of `content` is out of the spec's scope and is
modelled as an open structured value. -/
structure BasicLeaf where
  content : JValue
  event_type : EventType

/-- Modelled from the spec: a room-scoped-tier leaf shape carries the basic
fields plus required `event_id`, `room_id` and `sender` (§3). -/
structure RoomLeaf where
  content : JValue
  event_type : EventType
  event_id : String
  room_id : String
  sender : String

/-- Modelled from the spec: a state-tier leaf shape carries the room-scoped
fields plus required `state_key` (§3). -/
structure StateLeaf where
  content : JValue
  event_type : EventType
  event_id : String
  room_id : String
  sender : String
  state_key : String

/-- Structural decode of a basic-tier record from a structured value. -/
def BasicLeaf.fromJson (v : JValue) : Except String BasicLeaf :=
  match getAny v "content" with
  | .error e => .error e
  | .ok content =>
    match getEventType v with
    | .error e => .error e
    | .ok event_type => .ok ⟨content, event_type⟩

/-- Structural encode of a basic-tier record. -/
def BasicLeaf.toJson (e : BasicLeaf) : JValue :=
  .obj [("content", e.content), ("type", e.event_type.toJson)]

/-- Structural decode of a room-scoped-tier record from a structured value. -/
def RoomLeaf.fromJson (v : JValue) : Except String RoomLeaf :=
  match getAny v "content" with
  | .error e => .error e
  | .ok content =>
    match getEventType v with
    | .error e => .error e
    | .ok event_type =>
      match getString v "event_id" with
      | .error e => .error e
      | .ok event_id =>
        match getString v "room_id" with
        | .error e => .error e
        | .ok room_id =>
          match getString v "sender" with
          | .error e => .error e
          | .ok sender => .ok ⟨content, event_type, event_id, room_id, sender⟩

/-- Structural encode of a room-scoped-tier record. -/
def RoomLeaf.toJson (e : RoomLeaf) : JValue :=
  .obj [("content", e.content), ("type", e.event_type.toJson),
        ("event_id", .str e.event_id), ("room_id", .str e.room_id),
        ("sender", .str e.sender)]

/-- Structural decode of a state-tier record from a structured value. -/
def StateLeaf.fromJson (v : JValue) : Except String StateLeaf :=
  match getAny v "content" with
  | .error e => .error e
  | .ok content =>
    match getEventType v with
    | .error e => .error e
    | .ok event_type =>
      match getString v "event_id" with
      | .error e => .error e
      | .ok event_id =>
        match getString v "room_id" with
        | .error e => .error e
        | .ok room_id =>
          match getString v "sender" with
          | .error e => .error e
          | .ok sender =>
            match getString v "state_key" with
            | .error e => .error e
            | .ok state_key =>
              .ok ⟨content, event_type, event_id, room_id, sender, state_key⟩

/-- Structural encode of a state-tier record. -/
def StateLeaf.toJson (e : StateLeaf) : JValue :=
  .obj [("content", e.content), ("type", e.event_type.toJson),
        ("event_id", .str e.event_id), ("room_id", .str e.room_id),
        ("sender", .str e.sender), ("state_key", .str e.state_key)]

/-- An acknowledgement of an event (`Receipt` in `src/receipt.rs`): the
timestamp the receipt was sent at.  `ts` is `u64` in the source; it is
modelled as a natural number, with the `u64` range enforced by the decoder. -/
structure Receipt where
  ts : Nat

/-- A collection of receipts (`Receipts` in `src/receipt.rs`): `m_read` maps
user ID to receipt.  The source's `HashMap` is modelled as an association
list; the map invariant is that keys are unique. -/
structure Receipts where
  m_read : List (String × Receipt)

/-- The payload of a `ReceiptEvent` (`ReceiptEventContent` in
`src/receipt.rs`): a mapping of event ID to a collection of receipts. -/
abbrev ReceiptEventContent := List (String × Receipts)

/-- Informs the client of new receipts (`ReceiptEvent` in `src/receipt.rs`):
`content`, `type` (renamed from `event_type`) and `room_id`. -/
structure ReceiptEvent where
  content : ReceiptEventContent
  event_type : EventType
  room_id : String

/-- Structural decode of a `Receipt`: requires a `ts` field holding a
non-negative integer within the `u64` range. -/
def Receipt.fromJson (v : JValue) : Except String Receipt :=
  match v.get "ts" with
  | some (.num n) =>
    if 0 ≤ n ∧ n.toNat < 2 ^ 64 then .ok ⟨n.toNat⟩ else .error "invalid field ts"
  | some _ => .error "invalid field ts"
  | none => .error "missing field ts"

/-- Decode every entry of a user-to-receipt map from an object's field list. -/
def parseUserReceipts : List (String × JValue) → Except String (List (String × Receipt))
  | [] => .ok []
  | (k, w) :: rest =>
    match Receipt.fromJson w with
    | .error e => .error e
    | .ok r =>
      match parseUserReceipts rest with
      | .error e => .error e
      | .ok rs => .ok ((k, r) :: rs)

/-- Structural decode of a `Receipts` record: requires an `m_read` field
holding a map from user ID to receipt. -/
def Receipts.fromJson (v : JValue) : Except String Receipts :=
  match v.get "m_read" with
  | some (.obj entries) =>
    match parseUserReceipts entries with
    | .error e => .error e
    | .ok m => .ok ⟨m⟩
  | some _ => .error "invalid field m_read"
  | none => .error "missing field m_read"

/-- Decode every entry of the event-ID-to-receipts map. -/
def parseReceiptContent : List (String × JValue) → Except String (List (String × Receipts))
  | [] => .ok []
  | (k, w) :: rest =>
    match Receipts.fromJson w with
    | .error e => .error e
    | .ok r =>
      match parseReceiptContent rest with
      | .error e => .error e
      | .ok rs => .ok ((k, r) :: rs)

/-- Structural decode of a `ReceiptEvent` per `src/receipt.rs`: required
`content` (a map of event ID to receipts), `type` and `room_id`. -/
def ReceiptEvent.fromJson (v : JValue) : Except String ReceiptEvent :=
  match v.get "content" with
  | some (.obj entries) =>
    (match parseReceiptContent entries with
     | .error e => .error e
     | .ok content =>
       match getEventType v with
       | .error e => .error e
       | .ok event_type =>
         match getString v "room_id" with
         | .error e => .error e
         | .ok room_id => .ok ⟨content, event_type, room_id⟩)
  | some _ => .error "invalid field content"
  | none => .error "missing field content"

/-- Structural encode of a `Receipt`. -/
def Receipt.toJson (r : Receipt) : JValue := .obj [("ts", .num r.ts)]

/-- Structural encode of a `Receipts` record. -/
def Receipts.toJson (r : Receipts) : JValue :=
  .obj [("m_read", .obj (r.m_read.map fun p => (p.1, p.2.toJson)))]

/-- Structural encode of a `ReceiptEvent`, emitting `content`, `type` and
`room_id` as in `src/receipt.rs`. -/
def ReceiptEvent.toJson (e : ReceiptEvent) : JValue :=
  .obj [("content", .obj (e.content.map fun p => (p.1, p.2.toJson))),
        ("type", e.event_type.toJson), ("room_id", .str e.room_id)]

/-- Modelled from the spec: leaf shape for *m.call.answer* (room-scoped tier). -/
abbrev AnswerEvent := RoomLeaf

/-- Modelled from the spec: leaf shape for *m.call.candidates* (room-scoped tier). -/
abbrev CandidatesEvent := RoomLeaf

/-- Modelled from the spec: leaf shape for *m.call.hangup* (room-scoped tier). -/
abbrev HangupEvent := RoomLeaf

/-- Modelled from the spec: leaf shape for *m.call.invite* (room-scoped tier). -/
abbrev InviteEvent := RoomLeaf

/-- Modelled from the spec: leaf shape for *m.presence* (basic tier). -/
abbrev PresenceEvent := BasicLeaf

/-- Modelled from the spec: leaf shape for *m.room.aliases* (state tier). -/
abbrev AliasesEvent := StateLeaf

/-- Modelled from the spec: leaf shape for *m.room.avatar* (state tier). -/
abbrev AvatarEvent := StateLeaf

/-- Modelled from the spec: leaf shape for *m.room.canonical_alias* (state tier). -/
abbrev CanonicalAliasEvent := StateLeaf

/-- Modelled from the spec: leaf shape for *m.room.create* (state tier). -/
abbrev CreateEvent := StateLeaf

/-- Modelled from the spec: leaf shape for *m.room.guest_access* (state tier). -/
abbrev GuestAccessEvent := StateLeaf

/-- Modelled from the spec: leaf shape for *m.room.history_visibility* (state tier). -/
abbrev HistoryVisibilityEvent := StateLeaf

/-- Modelled from the spec: leaf shape for *m.room.join_rules* (state tier). -/
abbrev JoinRulesEvent := StateLeaf

/-- Modelled from the spec: leaf shape for *m.room.member* (state tier). -/
abbrev MemberEvent := StateLeaf

/-- Modelled from the spec: leaf shape for *m.room.message* (room-scoped tier). -/
abbrev MessageEvent := RoomLeaf

/-- Modelled from the spec: leaf shape for *m.room.name* (state tier). -/
abbrev NameEvent := StateLeaf

/-- Modelled from the spec: leaf shape for *m.room.power_levels* (state tier). -/
abbrev PowerLevelsEvent := StateLeaf

/-- Modelled from the spec: leaf shape for *m.room.redaction* (room-scoped tier). -/
abbrev RedactionEvent := RoomLeaf

/-- Modelled from the spec: leaf shape for *m.room.third_party_invite* (state tier). -/
abbrev ThirdPartyInviteEvent := StateLeaf

/-- Modelled from the spec: leaf shape for *m.room.topic* (state tier). -/
abbrev TopicEvent := StateLeaf

/-- Modelled from the spec: leaf shape for *m.tag* (basic tier). -/
abbrev TagEvent := BasicLeaf

/-- Modelled from the spec: leaf shape for *m.typing* (basic tier). -/
abbrev TypingEvent := BasicLeaf

/-- Modelled from the spec: a custom basic event not covered by the
specification — the basic-tier generic record with an open `content`. -/
abbrev CustomEvent := BasicLeaf

/-- Modelled from the spec: a custom room event — the room-scoped-tier generic
record with an open `content` and required `event_id`, `room_id`, `sender`. -/
abbrev CustomRoomEvent := RoomLeaf

/-- Modelled from the spec: a custom state event — the state-tier generic
record with an open `content` and required `state_key` metadata. -/
abbrev CustomStateEvent := StateLeaf

/-- A basic event, room event, or state event (the `Event` enum of
`src/collections/all.rs`). -/
inductive Event where
  | CallAnswer (event : AnswerEvent)
  | CallCandidates (event : CandidatesEvent)
  | CallHangup (event : HangupEvent)
  | CallInvite (event : InviteEvent)
  | Presence (event : PresenceEvent)
  | Receipt (event : ReceiptEvent)
  | RoomAliases (event : AliasesEvent)
  | RoomAvatar (event : AvatarEvent)
  | RoomCanonicalAlias (event : CanonicalAliasEvent)
  | RoomCreate (event : CreateEvent)
  | RoomGuestAccess (event : GuestAccessEvent)
  | RoomHistoryVisibility (event : HistoryVisibilityEvent)
  | RoomJoinRules (event : JoinRulesEvent)
  | RoomMember (event : MemberEvent)
  | RoomMessage (event : MessageEvent)
  | RoomName (event : NameEvent)
  | RoomPowerLevels (event : PowerLevelsEvent)
  | RoomRedaction (event : RedactionEvent)
  | RoomThirdPartyInvite (event : ThirdPartyInviteEvent)
  | RoomTopic (event : TopicEvent)
  | Tag (event : TagEvent)
  | Typing (event : TypingEvent)
  | Custom (event : CustomEvent)
  | CustomRoom (event : CustomRoomEvent)
  | CustomState (event : CustomStateEvent)

/-- A room event or state event (the `RoomEvent` enum of
`src/collections/all.rs`). -/
inductive RoomEvent where
  | CallAnswer (event : AnswerEvent)
  | CallCandidates (event : CandidatesEvent)
  | CallHangup (event : HangupEvent)
  | CallInvite (event : InviteEvent)
  | RoomAliases (event : AliasesEvent)
  | RoomAvatar (event : AvatarEvent)
  | RoomCanonicalAlias (event : CanonicalAliasEvent)
  | RoomCreate (event : CreateEvent)
  | RoomGuestAccess (event : GuestAccessEvent)
  | RoomHistoryVisibility (event : HistoryVisibilityEvent)
  | RoomJoinRules (event : JoinRulesEvent)
  | RoomMember (event : MemberEvent)
  | RoomMessage (event : MessageEvent)
  | RoomName (event : NameEvent)
  | RoomPowerLevels (event : PowerLevelsEvent)
  | RoomRedaction (event : RedactionEvent)
  | RoomThirdPartyInvite (event : ThirdPartyInviteEvent)
  | RoomTopic (event : TopicEvent)
  | CustomRoom (event : CustomRoomEvent)
  | CustomState (event : CustomStateEvent)

/-- A state event (the `StateEvent` enum of `src/collections/all.rs`). -/
inductive StateEvent where
  | RoomAliases (event : AliasesEvent)
  | RoomAvatar (event : AvatarEvent)
  | RoomCanonicalAlias (event : CanonicalAliasEvent)
  | RoomCreate (event : CreateEvent)
  | RoomGuestAccess (event : GuestAccessEvent)
  | RoomHistoryVisibility (event : HistoryVisibilityEvent)
  | RoomJoinRules (event : JoinRulesEvent)
  | RoomMember (event : MemberEvent)
  | RoomName (event : NameEvent)
  | RoomPowerLevels (event : PowerLevelsEvent)
  | RoomThirdPartyInvite (event : ThirdPartyInviteEvent)
  | RoomTopic (event : TopicEvent)
  | CustomState (event : CustomStateEvent)

/-- The decode errors the container layer can surface: `missingField` models
`D::Error::missing_field` and `custom` models `D::Error::custom` carrying the
stringified underlying cause. -/
inductive DeError where
  | missingField (name : String)
  | custom (msg : String)
deriving DecidableEq

/-- The shared per-arm pattern of the container decoders: run the chosen leaf
parse; on success wrap the leaf in the container member, on failure surface
the cause as a `custom` decode error (`D::Error::custom(error.to_string())`). -/
def wrapLeaf {α β : Type} (r : Except String α) (f : α → β) : Except DeError β :=
  match r with
  | .ok a => .ok (f a)
  | .error e => .error (.custom e)

/-- `Event::serialize` from `src/collections/all.rs`: delegate to the
serialization of whichever concrete value the union holds. -/
def Event.serialize : Event → JValue
  | .CallAnswer event => RoomLeaf.toJson event
  | .CallCandidates event => RoomLeaf.toJson event
  | .CallHangup event => RoomLeaf.toJson event
  | .CallInvite event => RoomLeaf.toJson event
  | .Presence event => BasicLeaf.toJson event
  | .Receipt event => ReceiptEvent.toJson event
  | .RoomAliases event => StateLeaf.toJson event
  | .RoomAvatar event => StateLeaf.toJson event
  | .RoomCanonicalAlias event => StateLeaf.toJson event
  | .RoomCreate event => StateLeaf.toJson event
  | .RoomGuestAccess event => StateLeaf.toJson event
  | .RoomHistoryVisibility event => StateLeaf.toJson event
  | .RoomJoinRules event => StateLeaf.toJson event
  | .RoomMember event => StateLeaf.toJson event
  | .RoomMessage event => RoomLeaf.toJson event
  | .RoomName event => StateLeaf.toJson event
  | .RoomPowerLevels event => StateLeaf.toJson event
  | .RoomRedaction event => RoomLeaf.toJson event
  | .RoomThirdPartyInvite event => StateLeaf.toJson event
  | .RoomTopic event => StateLeaf.toJson event
  | .Tag event => BasicLeaf.toJson event
  | .Typing event => BasicLeaf.toJson event
  | .Custom event => BasicLeaf.toJson event
  | .CustomRoom event => RoomLeaf.toJson event
  | .CustomState event => StateLeaf.toJson event

/-- `RoomEvent::serialize` from `src/collections/all.rs`. -/
def RoomEvent.serialize : RoomEvent → JValue
  | .CallAnswer event => RoomLeaf.toJson event
  | .CallCandidates event => RoomLeaf.toJson event
  | .CallHangup event => RoomLeaf.toJson event
  | .CallInvite event => RoomLeaf.toJson event
  | .RoomAliases event => StateLeaf.toJson event
  | .RoomAvatar event => StateLeaf.toJson event
  | .RoomCanonicalAlias event => StateLeaf.toJson event
  | .RoomCreate event => StateLeaf.toJson event
  | .RoomGuestAccess event => StateLeaf.toJson event
  | .RoomHistoryVisibility event => StateLeaf.toJson event
  | .RoomJoinRules event => StateLeaf.toJson event
  | .RoomMember event => StateLeaf.toJson event
  | .RoomMessage event => RoomLeaf.toJson event
  | .RoomName event => StateLeaf.toJson event
  | .RoomPowerLevels event => StateLeaf.toJson event
  | .RoomRedaction event => RoomLeaf.toJson event
  | .RoomThirdPartyInvite event => StateLeaf.toJson event
  | .RoomTopic event => StateLeaf.toJson event
  | .CustomRoom event => RoomLeaf.toJson event
  | .CustomState event => StateLeaf.toJson event

/-- `StateEvent::serialize` from `src/collections/all.rs`. -/
def StateEvent.serialize : StateEvent → JValue
  | .RoomAliases event => StateLeaf.toJson event
  | .RoomAvatar event => StateLeaf.toJson event
  | .RoomCanonicalAlias event => StateLeaf.toJson event
  | .RoomCreate event => StateLeaf.toJson event
  | .RoomGuestAccess event => StateLeaf.toJson event
  | .RoomHistoryVisibility event => StateLeaf.toJson event
  | .RoomJoinRules event => StateLeaf.toJson event
  | .RoomMember event => StateLeaf.toJson event
  | .RoomName event => StateLeaf.toJson event
  | .RoomPowerLevels event => StateLeaf.toJson event
  | .RoomThirdPartyInvite event => StateLeaf.toJson event
  | .RoomTopic event => StateLeaf.toJson event
  | .CustomState event => StateLeaf.toJson event

/-- `Event::deserialize` from `src/collections/all.rs`: look up `type` (its
absence is `missing_field("type")`), parse it as the discriminator, re-parse
the whole value as the matching leaf shape; an unrecognized discriminator is
classified by field presence (`state_key`, then `event_id` and `room_id` and
`sender`) into the custom state, room or basic member. -/
def Event.deserialize (v : JValue) : Except DeError Event :=
  match v.get "type" with
  | none => .error (.missingField "type")
  | some event_type_value =>
    match EventType.fromJson event_type_value with
    | .error error => .error (.custom error)
    | .ok event_type =>
      match event_type with
      | .CallAnswer => wrapLeaf (RoomLeaf.fromJson v) Event.CallAnswer
      | .CallCandidates => wrapLeaf (RoomLeaf.fromJson v) Event.CallCandidates
      | .CallHangup => wrapLeaf (RoomLeaf.fromJson v) Event.CallHangup
      | .CallInvite => wrapLeaf (RoomLeaf.fromJson v) Event.CallInvite
      | .Presence => wrapLeaf (BasicLeaf.fromJson v) Event.Presence
      | .Receipt => wrapLeaf (ReceiptEvent.fromJson v) Event.Receipt
      | .RoomAliases => wrapLeaf (StateLeaf.fromJson v) Event.RoomAliases
      | .RoomAvatar => wrapLeaf (StateLeaf.fromJson v) Event.RoomAvatar
      | .RoomCanonicalAlias => wrapLeaf (StateLeaf.fromJson v) Event.RoomCanonicalAlias
      | .RoomCreate => wrapLeaf (StateLeaf.fromJson v) Event.RoomCreate
      | .RoomGuestAccess => wrapLeaf (StateLeaf.fromJson v) Event.RoomGuestAccess
      | .RoomHistoryVisibility => wrapLeaf (StateLeaf.fromJson v) Event.RoomHistoryVisibility
      | .RoomJoinRules => wrapLeaf (StateLeaf.fromJson v) Event.RoomJoinRules
      | .RoomMember => wrapLeaf (StateLeaf.fromJson v) Event.RoomMember
      | .RoomMessage => wrapLeaf (RoomLeaf.fromJson v) Event.RoomMessage
      | .RoomName => wrapLeaf (StateLeaf.fromJson v) Event.RoomName
      | .RoomPowerLevels => wrapLeaf (StateLeaf.fromJson v) Event.RoomPowerLevels
      | .RoomRedaction => wrapLeaf (RoomLeaf.fromJson v) Event.RoomRedaction
      | .RoomThirdPartyInvite => wrapLeaf (StateLeaf.fromJson v) Event.RoomThirdPartyInvite
      | .RoomTopic => wrapLeaf (StateLeaf.fromJson v) Event.RoomTopic
      | .Tag => wrapLeaf (BasicLeaf.fromJson v) Event.Tag
      | .Typing => wrapLeaf (BasicLeaf.fromJson v) Event.Typing
      | .Custom _ =>
        if (v.get "state_key").isSome then
          wrapLeaf (StateLeaf.fromJson v) Event.CustomState
        else if (v.get "event_id").isSome && (v.get "room_id").isSome &&
            (v.get "sender").isSome then
          wrapLeaf (RoomLeaf.fromJson v) Event.CustomRoom
        else
          wrapLeaf (BasicLeaf.fromJson v) Event.Custom

/-- `RoomEvent::deserialize` from `src/collections/all.rs`: same structure as
`Event::deserialize`, except that the basic discriminators (presence,
receipt, tag, typing) fail with "not a room event" and the unrecognized
fallback only distinguishes custom state (by `state_key` presence) from
custom room. -/
def RoomEvent.deserialize (v : JValue) : Except DeError RoomEvent :=
  match v.get "type" with
  | none => .error (.missingField "type")
  | some event_type_value =>
    match EventType.fromJson event_type_value with
    | .error error => .error (.custom error)
    | .ok event_type =>
      match event_type with
      | .CallAnswer => wrapLeaf (RoomLeaf.fromJson v) RoomEvent.CallAnswer
      | .CallCandidates => wrapLeaf (RoomLeaf.fromJson v) RoomEvent.CallCandidates
      | .CallHangup => wrapLeaf (RoomLeaf.fromJson v) RoomEvent.CallHangup
      | .CallInvite => wrapLeaf (RoomLeaf.fromJson v) RoomEvent.CallInvite
      | .RoomAliases => wrapLeaf (StateLeaf.fromJson v) RoomEvent.RoomAliases
      | .RoomAvatar => wrapLeaf (StateLeaf.fromJson v) RoomEvent.RoomAvatar
      | .RoomCanonicalAlias => wrapLeaf (StateLeaf.fromJson v) RoomEvent.RoomCanonicalAlias
      | .RoomCreate => wrapLeaf (StateLeaf.fromJson v) RoomEvent.RoomCreate
      | .RoomGuestAccess => wrapLeaf (StateLeaf.fromJson v) RoomEvent.RoomGuestAccess
      | .RoomHistoryVisibility => wrapLeaf (StateLeaf.fromJson v) RoomEvent.RoomHistoryVisibility
      | .RoomJoinRules => wrapLeaf (StateLeaf.fromJson v) RoomEvent.RoomJoinRules
      | .RoomMember => wrapLeaf (StateLeaf.fromJson v) RoomEvent.RoomMember
      | .RoomMessage => wrapLeaf (RoomLeaf.fromJson v) RoomEvent.RoomMessage
      | .RoomName => wrapLeaf (StateLeaf.fromJson v) RoomEvent.RoomName
      | .RoomPowerLevels => wrapLeaf (StateLeaf.fromJson v) RoomEvent.RoomPowerLevels
      | .RoomRedaction => wrapLeaf (RoomLeaf.fromJson v) RoomEvent.RoomRedaction
      | .RoomThirdPartyInvite => wrapLeaf (StateLeaf.fromJson v) RoomEvent.RoomThirdPartyInvite
      | .RoomTopic => wrapLeaf (StateLeaf.fromJson v) RoomEvent.RoomTopic
      | .Custom _ =>
        if (v.get "state_key").isSome then
          wrapLeaf (StateLeaf.fromJson v) RoomEvent.CustomState
        else
          wrapLeaf (RoomLeaf.fromJson v) RoomEvent.CustomRoom
      | .Presence | .Receipt | .Tag | .Typing =>
        .error (.custom "not a room event")

/-- `StateEvent::deserialize` from `src/collections/all.rs`: only the twelve
state-tier discriminators are legal; the ten other known discriminators fail
with "not a state event"; an unrecognized discriminator is unconditionally
parsed as a custom state event. -/
def StateEvent.deserialize (v : JValue) : Except DeError StateEvent :=
  match v.get "type" with
  | none => .error (.missingField "type")
  | some event_type_value =>
    match EventType.fromJson event_type_value with
    | .error error => .error (.custom error)
    | .ok event_type =>
      match event_type with
      | .RoomAliases => wrapLeaf (StateLeaf.fromJson v) StateEvent.RoomAliases
      | .RoomAvatar => wrapLeaf (StateLeaf.fromJson v) StateEvent.RoomAvatar
      | .RoomCanonicalAlias => wrapLeaf (StateLeaf.fromJson v) StateEvent.RoomCanonicalAlias
      | .RoomCreate => wrapLeaf (StateLeaf.fromJson v) StateEvent.RoomCreate
      | .RoomGuestAccess => wrapLeaf (StateLeaf.fromJson v) StateEvent.RoomGuestAccess
      | .RoomHistoryVisibility => wrapLeaf (StateLeaf.fromJson v) StateEvent.RoomHistoryVisibility
      | .RoomJoinRules => wrapLeaf (StateLeaf.fromJson v) StateEvent.RoomJoinRules
      | .RoomMember => wrapLeaf (StateLeaf.fromJson v) StateEvent.RoomMember
      | .RoomName => wrapLeaf (StateLeaf.fromJson v) StateEvent.RoomName
      | .RoomPowerLevels => wrapLeaf (StateLeaf.fromJson v) StateEvent.RoomPowerLevels
      | .RoomThirdPartyInvite => wrapLeaf (StateLeaf.fromJson v) StateEvent.RoomThirdPartyInvite
      | .RoomTopic => wrapLeaf (StateLeaf.fromJson v) StateEvent.RoomTopic
      | .Custom _ => wrapLeaf (StateLeaf.fromJson v) StateEvent.CustomState
      | .CallAnswer | .CallCandidates | .CallHangup | .CallInvite
      | .Presence | .Receipt | .RoomMessage | .RoomRedaction
      | .Tag | .Typing =>
        .error (.custom "not a state event")

/-- The inclusion of `StateEvent` members into `RoomEvent` members given by
the conversion layer (each state-tier leaf is a legal `RoomEvent` member with
the same name, and custom state maps to custom state). -/
def StateEvent.toRoomEvent : StateEvent → RoomEvent
  | .RoomAliases e => .RoomAliases e
  | .RoomAvatar e => .RoomAvatar e
  | .RoomCanonicalAlias e => .RoomCanonicalAlias e
  | .RoomCreate e => .RoomCreate e
  | .RoomGuestAccess e => .RoomGuestAccess e
  | .RoomHistoryVisibility e => .RoomHistoryVisibility e
  | .RoomJoinRules e => .RoomJoinRules e
  | .RoomMember e => .RoomMember e
  | .RoomName e => .RoomName e
  | .RoomPowerLevels e => .RoomPowerLevels e
  | .RoomThirdPartyInvite e => .RoomThirdPartyInvite e
  | .RoomTopic e => .RoomTopic e
  | .CustomState e => .CustomState e

/-- The inclusion of `StateEvent` members into `Event` members given by the
conversion layer. -/
def StateEvent.toEvent : StateEvent → Event
  | .RoomAliases e => .RoomAliases e
  | .RoomAvatar e => .RoomAvatar e
  | .RoomCanonicalAlias e => .RoomCanonicalAlias e
  | .RoomCreate e => .RoomCreate e
  | .RoomGuestAccess e => .RoomGuestAccess e
  | .RoomHistoryVisibility e => .RoomHistoryVisibility e
  | .RoomJoinRules e => .RoomJoinRules e
  | .RoomMember e => .RoomMember e
  | .RoomName e => .RoomName e
  | .RoomPowerLevels e => .RoomPowerLevels e
  | .RoomThirdPartyInvite e => .RoomThirdPartyInvite e
  | .RoomTopic e => .RoomTopic e
  | .CustomState e => .CustomState e

/-- The spec's unknown-discriminator classification tiers. -/
inductive CustomTier where
  | state
  | room
  | basic
deriving DecidableEq

/-- The spec's classification predicate for unrecognized discriminators,
stated in its own words: `state_key` present classifies as custom-state, else
`event_id` and `room_id` and `sender` all present classifies as custom-room,
else custom-basic. -/
def classifyCustom (v : JValue) : CustomTier :=
  if (v.get "state_key").isSome then .state
  else if (v.get "event_id").isSome && (v.get "room_id").isSome &&
      (v.get "sender").isSome then .room
  else .basic

/-- C7: for every input value lacking a `type` field, decode at each of the
three container types fails with the missing-field error naming `type`. -/
theorem decode_missing_type (v : JValue) (h : v.get "type" = none) :
    Event.deserialize v = .error (.missingField "type") ∧
    RoomEvent.deserialize v = .error (.missingField "type") ∧
    StateEvent.deserialize v = .error (.missingField "type") := by
  unfold Event.deserialize RoomEvent.deserialize StateEvent.deserialize
  rw [h]
  exact ⟨rfl, rfl, rfl⟩

/-- Witness for C7 at the concrete input `{"content":{}}`. -/
theorem decode_missing_type_witness :
    Event.deserialize (.obj [("content", .obj [])]) = .error (.missingField "type") ∧
    RoomEvent.deserialize (.obj [("content", .obj [])]) = .error (.missingField "type") ∧
    StateEvent.deserialize (.obj [("content", .obj [])]) = .error (.missingField "type") :=
  decode_missing_type (.obj [("content", .obj [])]) rfl

/-- C3: for every input whose `type` field parses to the `Unknown` (custom)
discriminator, `StateEvent` decode unconditionally attempts the custom state
event parse and classifies the input as the `CustomState` member, with no
field-presence check. -/
theorem state_decode_unknown_unconditional (v tv : JValue) (s : String)
    (ht : v.get "type" = some tv)
    (he : EventType.fromJson tv = .ok (.Custom s)) :
    StateEvent.deserialize v = wrapLeaf (StateLeaf.fromJson v) StateEvent.CustomState := by
  unfold StateEvent.deserialize
  simp only [ht, he]

/-- Witness for C3 at the concrete input `{"type":"m.unknown.foo","content":{}}`
(which has no `state_key`). -/
theorem state_decode_unknown_unconditional_witness :
    StateEvent.deserialize (.obj [("type", .str "m.unknown.foo"), ("content", .obj [])]) =
      wrapLeaf (StateLeaf.fromJson (.obj [("type", .str "m.unknown.foo"), ("content", .obj [])]))
        StateEvent.CustomState :=
  state_decode_unknown_unconditional
    (.obj [("type", .str "m.unknown.foo"), ("content", .obj [])])
    (.str "m.unknown.foo") "m.unknown.foo" rfl rfl

/-- C1: for every input whose `type` field parses to the `Unknown` (custom)
discriminator, `Event` decode never errors merely because the discriminator
is unrecognized: it selects a custom member by the priority-ordered
field-presence classification (`state_key` first, then `event_id` and
`room_id` and `sender`, else basic), and in particular any input with
`state_key` present — even alongside all three room fields — classifies as
`CustomState`, never `CustomRoom`. -/
theorem event_decode_unknown_priority (v tv : JValue) (s : String)
    (ht : v.get "type" = some tv)
    (he : EventType.fromJson tv = .ok (.Custom s)) :
    (Event.deserialize v =
      match classifyCustom v with
      | .state => wrapLeaf (StateLeaf.fromJson v) Event.CustomState
      | .room => wrapLeaf (RoomLeaf.fromJson v) Event.CustomRoom
      | .basic => wrapLeaf (BasicLeaf.fromJson v) Event.Custom) ∧
    ((v.get "state_key").isSome → classifyCustom v = .state) := by
  unfold Event.deserialize
  simp only [ht, he]
  unfold classifyCustom
  by_cases h1 : (v.get "state_key").isSome
  · simp [h1]
  · by_cases h2 : ((v.get "event_id").isSome && (v.get "room_id").isSome &&
        (v.get "sender").isSome) = true
    · simp [h1, h2]
    · simp [h1, h2]

/-- Witness for C1 at the concrete input carrying an unknown discriminator,
a `state_key` and all three room fields: classification is custom-state. -/
theorem event_decode_unknown_priority_witness :
    (Event.deserialize (.obj [("type", .str "m.unknown.foo"), ("content", .obj []),
        ("state_key", .str ""), ("event_id", .str "$1"), ("room_id", .str "!r"),
        ("sender", .str "@a")]) =
      match classifyCustom (.obj [("type", .str "m.unknown.foo"), ("content", .obj []),
        ("state_key", .str ""), ("event_id", .str "$1"), ("room_id", .str "!r"),
        ("sender", .str "@a")]) with
      | .state => wrapLeaf (StateLeaf.fromJson (.obj [("type", .str "m.unknown.foo"),
          ("content", .obj []), ("state_key", .str ""), ("event_id", .str "$1"),
          ("room_id", .str "!r"), ("sender", .str "@a")])) Event.CustomState
      | .room => wrapLeaf (RoomLeaf.fromJson (.obj [("type", .str "m.unknown.foo"),
          ("content", .obj []), ("state_key", .str ""), ("event_id", .str "$1"),
          ("room_id", .str "!r"), ("sender", .str "@a")])) Event.CustomRoom
      | .basic => wrapLeaf (BasicLeaf.fromJson (.obj [("type", .str "m.unknown.foo"),
          ("content", .obj []), ("state_key", .str ""), ("event_id", .str "$1"),
          ("room_id", .str "!r"), ("sender", .str "@a")])) Event.Custom) ∧
    ((JValue.get (.obj [("type", .str "m.unknown.foo"), ("content", .obj []),
        ("state_key", .str ""), ("event_id", .str "$1"), ("room_id", .str "!r"),
        ("sender", .str "@a")]) "state_key").isSome →
      classifyCustom (.obj [("type", .str "m.unknown.foo"), ("content", .obj []),
        ("state_key", .str ""), ("event_id", .str "$1"), ("room_id", .str "!r"),
        ("sender", .str "@a")]) = .state) :=
  event_decode_unknown_priority
    (.obj [("type", .str "m.unknown.foo"), ("content", .obj []), ("state_key", .str ""),
      ("event_id", .str "$1"), ("room_id", .str "!r"), ("sender", .str "@a")])
    (.str "m.unknown.foo") "m.unknown.foo" rfl rfl

/-- C10: the unknown-discriminator classification in `Event` and `RoomEvent`
decode tests only the presence of the fields as object keys, not their
values: a `state_key` member holding any value (null included) selects the
custom-state parse, and `event_id`/`room_id`/`sender` members holding any
values satisfy the custom-room condition; failure can then come only from
the subsequent structural parse. -/
theorem custom_classification_ignores_values (v tv : JValue) (s : String)
    (ht : v.get "type" = some tv)
    (he : EventType.fromJson tv = .ok (.Custom s)) :
    (∀ w : JValue, v.get "state_key" = some w →
      Event.deserialize v = wrapLeaf (StateLeaf.fromJson v) Event.CustomState ∧
      RoomEvent.deserialize v = wrapLeaf (StateLeaf.fromJson v) RoomEvent.CustomState) ∧
    (v.get "state_key" = none →
      ∀ w1 w2 w3 : JValue, v.get "event_id" = some w1 → v.get "room_id" = some w2 →
        v.get "sender" = some w3 →
        Event.deserialize v = wrapLeaf (RoomLeaf.fromJson v) Event.CustomRoom ∧
        RoomEvent.deserialize v = wrapLeaf (RoomLeaf.fromJson v) RoomEvent.CustomRoom) := by
  constructor
  · intro w hw
    unfold Event.deserialize RoomEvent.deserialize
    simp only [ht, he]
    simp [hw]
  · intro hnone w1 w2 w3 h1 h2 h3
    unfold Event.deserialize RoomEvent.deserialize
    simp only [ht, he]
    simp [hnone, h1, h2, h3]

/-- Witness for C10 at the concrete input whose `state_key` is JSON null. -/
theorem custom_classification_ignores_values_witness :
    Event.deserialize (.obj [("type", .str "m.unknown.foo"), ("content", .obj []),
        ("state_key", .null)]) =
      wrapLeaf (StateLeaf.fromJson (.obj [("type", .str "m.unknown.foo"),
        ("content", .obj []), ("state_key", .null)])) Event.CustomState ∧
    RoomEvent.deserialize (.obj [("type", .str "m.unknown.foo"), ("content", .obj []),
        ("state_key", .null)]) =
      wrapLeaf (StateLeaf.fromJson (.obj [("type", .str "m.unknown.foo"),
        ("content", .obj []), ("state_key", .null)])) RoomEvent.CustomState :=
  (custom_classification_ignores_values
    (.obj [("type", .str "m.unknown.foo"), ("content", .obj []), ("state_key", .null)])
    (.str "m.unknown.foo") "m.unknown.foo" rfl rfl).1 .null rfl

/-- A failing `getAny` surfaces exactly the missing-field message for its
field. -/
theorem getAny_error_eq {v : JValue} {f m : String} (h : getAny v f = .error m) :
    m = "missing field " ++ f := by
  unfold getAny at h
  split at h <;> simp_all

/-- A failing `getString` surfaces the missing-field or invalid-field message
for its field. -/
theorem getString_error_eq {v : JValue} {f m : String} (h : getString v f = .error m) :
    m = "missing field " ++ f ∨ m = "invalid field " ++ f := by
  unfold getString at h
  split at h <;> simp_all

/-- A failing discriminator parse surfaces one of two fixed messages. -/
theorem getEventType_error_eq {v : JValue} {m : String} (h : getEventType v = .error m) :
    m = "missing field type" ∨ m = "invalid type for event type" := by
  unfold getEventType at h
  split at h
  · rename_i tv _
    unfold EventType.fromJson at h
    split at h <;> simp_all
  · simp_all

/-- A failing state-tier leaf parse never surfaces a container-level
illegal-member message. -/
theorem stateLeaf_error_msgs {v : JValue} {m : String}
    (h : StateLeaf.fromJson v = .error m) :
    m ≠ "not a room event" ∧ m ≠ "not a state event" := by
  unfold StateLeaf.fromJson at h
  repeat' split at h
  all_goals first
    | exact Except.noConfusion h
    | (injection h with h; subst h)
  all_goals first
    | (obtain rfl := getAny_error_eq (by assumption); exact ⟨by decide, by decide⟩)
    | (rcases getEventType_error_eq (by assumption) with rfl | rfl <;>
        exact ⟨by decide, by decide⟩)
    | (rcases getString_error_eq (by assumption) with rfl | rfl <;>
        exact ⟨by decide, by decide⟩)

/-- A failing room-tier leaf parse never surfaces a container-level
illegal-member message. -/
theorem roomLeaf_error_msgs {v : JValue} {m : String}
    (h : RoomLeaf.fromJson v = .error m) :
    m ≠ "not a room event" ∧ m ≠ "not a state event" := by
  unfold RoomLeaf.fromJson at h
  repeat' split at h
  all_goals first
    | exact Except.noConfusion h
    | (injection h with h; subst h)
  all_goals first
    | (obtain rfl := getAny_error_eq (by assumption); exact ⟨by decide, by decide⟩)
    | (rcases getEventType_error_eq (by assumption) with rfl | rfl <;>
        exact ⟨by decide, by decide⟩)
    | (rcases getString_error_eq (by assumption) with rfl | rfl <;>
        exact ⟨by decide, by decide⟩)

/-- A known-discriminator arm that parses a state-tier leaf cannot produce
the "not a room event" error. -/
theorem wrapState_ne_room_msg (v : JValue) {β : Type} (f : StateLeaf → β) :
    wrapLeaf (StateLeaf.fromJson v) f ≠ .error (.custom "not a room event") := by
  unfold wrapLeaf
  split
  · simp
  · rename_i e heq
    have := (stateLeaf_error_msgs heq).1
    simp_all

/-- A known-discriminator arm that parses a state-tier leaf cannot produce
the "not a state event" error. -/
theorem wrapState_ne_state_msg (v : JValue) {β : Type} (f : StateLeaf → β) :
    wrapLeaf (StateLeaf.fromJson v) f ≠ .error (.custom "not a state event") := by
  unfold wrapLeaf
  split
  · simp
  · rename_i e heq
    have := (stateLeaf_error_msgs heq).2
    simp_all

/-- A known-discriminator arm that parses a room-tier leaf cannot produce
the "not a room event" error. -/
theorem wrapRoom_ne_room_msg (v : JValue) {β : Type} (f : RoomLeaf → β) :
    wrapLeaf (RoomLeaf.fromJson v) f ≠ .error (.custom "not a room event") := by
  unfold wrapLeaf
  split
  · simp
  · rename_i e heq
    have := (roomLeaf_error_msgs heq).1
    simp_all

/-- A known-discriminator arm that parses a room-tier leaf cannot produce
the "not a state event" error. -/
theorem wrapRoom_ne_state_msg (v : JValue) {β : Type} (f : RoomLeaf → β) :
    wrapLeaf (RoomLeaf.fromJson v) f ≠ .error (.custom "not a state event") := by
  unfold wrapLeaf
  split
  · simp
  · rename_i e heq
    have := (roomLeaf_error_msgs heq).2
    simp_all

/-- C2: for every input whose `type` field holds a known discriminator,
`RoomEvent` decode fails with "not a room event" exactly when the
discriminator is presence, receipt, tag or typing, and `StateEvent` decode
fails with "not a state event" exactly when it is one of the four call
discriminators, presence, receipt, room-message, room-redaction, tag or
typing; in the illegal cases the error is produced without attempting a
leaf parse, and in all other known cases that error cannot arise. -/
theorem decode_tier_exclusion (v tv : JValue) (et : EventType)
    (ht : v.get "type" = some tv) (he : EventType.fromJson tv = .ok et) :
    (RoomEvent.deserialize v = .error (.custom "not a room event") ↔
       et = .Presence ∨ et = .Receipt ∨ et = .Tag ∨ et = .Typing) ∧
    (StateEvent.deserialize v = .error (.custom "not a state event") ↔
       et = .CallAnswer ∨ et = .CallCandidates ∨ et = .CallHangup ∨ et = .CallInvite ∨
       et = .Presence ∨ et = .Receipt ∨ et = .RoomMessage ∨ et = .RoomRedaction ∨
       et = .Tag ∨ et = .Typing) := by
  cases et <;>
    (unfold RoomEvent.deserialize StateEvent.deserialize
     simp only [ht, he]) <;>
    refine ⟨?_, ?_⟩ <;>
    (try split) <;>
    simp [wrapState_ne_room_msg, wrapState_ne_state_msg,
      wrapRoom_ne_room_msg, wrapRoom_ne_state_msg]

/-- Witness for C2 at the concrete input `{"type":"m.presence","content":{}}`. -/
theorem decode_tier_exclusion_witness :
    (RoomEvent.deserialize (.obj [("type", .str "m.presence"), ("content", .obj [])]) =
        .error (.custom "not a room event") ↔
       EventType.Presence = .Presence ∨ EventType.Presence = .Receipt ∨
       EventType.Presence = .Tag ∨ EventType.Presence = .Typing) ∧
    (StateEvent.deserialize (.obj [("type", .str "m.presence"), ("content", .obj [])]) =
        .error (.custom "not a state event") ↔
       EventType.Presence = .CallAnswer ∨ EventType.Presence = .CallCandidates ∨
       EventType.Presence = .CallHangup ∨ EventType.Presence = .CallInvite ∨
       EventType.Presence = .Presence ∨ EventType.Presence = .Receipt ∨
       EventType.Presence = .RoomMessage ∨ EventType.Presence = .RoomRedaction ∨
       EventType.Presence = .Tag ∨ EventType.Presence = .Typing) :=
  decode_tier_exclusion (.obj [("type", .str "m.presence"), ("content", .obj [])])
    (.str "m.presence") .Presence rfl rfl

/-- A successful `getString` means the field is present and holds exactly the
returned string. -/
theorem getString_ok {v : JValue} {f s : String} (h : getString v f = .ok s) :
    v.get f = some (.str s) := by
  unfold getString at h
  split at h <;> simp_all

/-- A successful state-tier leaf parse means the input's `state_key` member is
present (and holds the parsed string). -/
theorem stateLeaf_ok_state_key {v : JValue} {e : StateLeaf}
    (h : StateLeaf.fromJson v = .ok e) :
    v.get "state_key" = some (.str e.state_key) := by
  unfold StateLeaf.fromJson at h
  repeat' split at h
  all_goals first
    | exact Except.noConfusion h
    | (injection h with h; subst h; exact getString_ok (by assumption))

/-- C4: every input on which `StateEvent` decode succeeds decodes as
`RoomEvent` and as `Event` to the structurally-equivalent member — the image
of the successful `StateEvent` member under the conversion-layer inclusions
(same known discriminator's variant, or the same `CustomState`
classification). -/
theorem state_decode_agreement (v : JValue) (se : StateEvent)
    (h : StateEvent.deserialize v = .ok se) :
    RoomEvent.deserialize v = .ok se.toRoomEvent ∧
    Event.deserialize v = .ok se.toEvent := by
  unfold StateEvent.deserialize at h
  split at h
  · exact Except.noConfusion h
  · rename_i tv htv
    split at h
    · exact Except.noConfusion h
    · rename_i et het
      cases et
      all_goals dsimp only at h
      all_goals try exact Except.noConfusion h
      all_goals
        (unfold wrapLeaf at h
         split at h
         all_goals first
           | exact Except.noConfusion h
           | (rename_i e heq
              injection h with h
              subst h
              have hsk := stateLeaf_ok_state_key heq
              constructor
              · unfold RoomEvent.deserialize
                simp only [htv, het]
                simp [StateEvent.toRoomEvent, wrapLeaf, heq, hsk]
              · unfold Event.deserialize
                simp only [htv, het]
                simp [StateEvent.toEvent, wrapLeaf, heq, hsk]))

/-- A concrete *m.room.topic* state event used by the witnesses. -/
def topicStateVal : JValue :=
  .obj [("type", .str "m.room.topic"), ("content", .obj [("topic", .str "hi")]),
        ("event_id", .str "$1"), ("room_id", .str "!r"), ("sender", .str "@a"),
        ("state_key", .str "")]

/-- The state-tier leaf record `topicStateVal` parses to. -/
def topicStateLeaf : StateLeaf :=
  ⟨.obj [("topic", .str "hi")], .RoomTopic, "$1", "!r", "@a", ""⟩

/-- Witness for C4 at the concrete *m.room.topic* input. -/
theorem state_decode_agreement_witness :
    RoomEvent.deserialize topicStateVal = .ok ((StateEvent.RoomTopic topicStateLeaf).toRoomEvent) ∧
    Event.deserialize topicStateVal = .ok ((StateEvent.RoomTopic topicStateLeaf).toEvent) :=
  state_decode_agreement topicStateVal (.RoomTopic topicStateLeaf) rfl

/-- C6: serialization of every container instance equals the serialization of
the concrete value the union currently holds — each variant of each container
delegates directly to the contained value's own encoder.  Encode performs no
discriminator branching or re-validation and, being a total function into
structured values, adds no failure mode of its own. -/
theorem serialize_delegates :
    (∀ e : AnswerEvent, Event.serialize (.CallAnswer e) = RoomLeaf.toJson e) ∧
    (∀ e : CandidatesEvent, Event.serialize (.CallCandidates e) = RoomLeaf.toJson e) ∧
    (∀ e : HangupEvent, Event.serialize (.CallHangup e) = RoomLeaf.toJson e) ∧
    (∀ e : InviteEvent, Event.serialize (.CallInvite e) = RoomLeaf.toJson e) ∧
    (∀ e : PresenceEvent, Event.serialize (.Presence e) = BasicLeaf.toJson e) ∧
    (∀ e : ReceiptEvent, Event.serialize (.Receipt e) = ReceiptEvent.toJson e) ∧
    (∀ e : AliasesEvent, Event.serialize (.RoomAliases e) = StateLeaf.toJson e) ∧
    (∀ e : AvatarEvent, Event.serialize (.RoomAvatar e) = StateLeaf.toJson e) ∧
    (∀ e : CanonicalAliasEvent, Event.serialize (.RoomCanonicalAlias e) = StateLeaf.toJson e) ∧
    (∀ e : CreateEvent, Event.serialize (.RoomCreate e) = StateLeaf.toJson e) ∧
    (∀ e : GuestAccessEvent, Event.serialize (.RoomGuestAccess e) = StateLeaf.toJson e) ∧
    (∀ e : HistoryVisibilityEvent, Event.serialize (.RoomHistoryVisibility e) = StateLeaf.toJson e) ∧
    (∀ e : JoinRulesEvent, Event.serialize (.RoomJoinRules e) = StateLeaf.toJson e) ∧
    (∀ e : MemberEvent, Event.serialize (.RoomMember e) = StateLeaf.toJson e) ∧
    (∀ e : MessageEvent, Event.serialize (.RoomMessage e) = RoomLeaf.toJson e) ∧
    (∀ e : NameEvent, Event.serialize (.RoomName e) = StateLeaf.toJson e) ∧
    (∀ e : PowerLevelsEvent, Event.serialize (.RoomPowerLevels e) = StateLeaf.toJson e) ∧
    (∀ e : RedactionEvent, Event.serialize (.RoomRedaction e) = RoomLeaf.toJson e) ∧
    (∀ e : ThirdPartyInviteEvent, Event.serialize (.RoomThirdPartyInvite e) = StateLeaf.toJson e) ∧
    (∀ e : TopicEvent, Event.serialize (.RoomTopic e) = StateLeaf.toJson e) ∧
    (∀ e : TagEvent, Event.serialize (.Tag e) = BasicLeaf.toJson e) ∧
    (∀ e : TypingEvent, Event.serialize (.Typing e) = BasicLeaf.toJson e) ∧
    (∀ e : CustomEvent, Event.serialize (.Custom e) = BasicLeaf.toJson e) ∧
    (∀ e : CustomRoomEvent, Event.serialize (.CustomRoom e) = RoomLeaf.toJson e) ∧
    (∀ e : CustomStateEvent, Event.serialize (.CustomState e) = StateLeaf.toJson e) ∧
    (∀ e : AnswerEvent, RoomEvent.serialize (.CallAnswer e) = RoomLeaf.toJson e) ∧
    (∀ e : CandidatesEvent, RoomEvent.serialize (.CallCandidates e) = RoomLeaf.toJson e) ∧
    (∀ e : HangupEvent, RoomEvent.serialize (.CallHangup e) = RoomLeaf.toJson e) ∧
    (∀ e : InviteEvent, RoomEvent.serialize (.CallInvite e) = RoomLeaf.toJson e) ∧
    (∀ e : AliasesEvent, RoomEvent.serialize (.RoomAliases e) = StateLeaf.toJson e) ∧
    (∀ e : AvatarEvent, RoomEvent.serialize (.RoomAvatar e) = StateLeaf.toJson e) ∧
    (∀ e : CanonicalAliasEvent, RoomEvent.serialize (.RoomCanonicalAlias e) = StateLeaf.toJson e) ∧
    (∀ e : CreateEvent, RoomEvent.serialize (.RoomCreate e) = StateLeaf.toJson e) ∧
    (∀ e : GuestAccessEvent, RoomEvent.serialize (.RoomGuestAccess e) = StateLeaf.toJson e) ∧
    (∀ e : HistoryVisibilityEvent, RoomEvent.serialize (.RoomHistoryVisibility e) = StateLeaf.toJson e) ∧
    (∀ e : JoinRulesEvent, RoomEvent.serialize (.RoomJoinRules e) = StateLeaf.toJson e) ∧
    (∀ e : MemberEvent, RoomEvent.serialize (.RoomMember e) = StateLeaf.toJson e) ∧
    (∀ e : MessageEvent, RoomEvent.serialize (.RoomMessage e) = RoomLeaf.toJson e) ∧
    (∀ e : NameEvent, RoomEvent.serialize (.RoomName e) = StateLeaf.toJson e) ∧
    (∀ e : PowerLevelsEvent, RoomEvent.serialize (.RoomPowerLevels e) = StateLeaf.toJson e) ∧
    (∀ e : RedactionEvent, RoomEvent.serialize (.RoomRedaction e) = RoomLeaf.toJson e) ∧
    (∀ e : ThirdPartyInviteEvent, RoomEvent.serialize (.RoomThirdPartyInvite e) = StateLeaf.toJson e) ∧
    (∀ e : TopicEvent, RoomEvent.serialize (.RoomTopic e) = StateLeaf.toJson e) ∧
    (∀ e : CustomRoomEvent, RoomEvent.serialize (.CustomRoom e) = RoomLeaf.toJson e) ∧
    (∀ e : CustomStateEvent, RoomEvent.serialize (.CustomState e) = StateLeaf.toJson e) ∧
    (∀ e : AliasesEvent, StateEvent.serialize (.RoomAliases e) = StateLeaf.toJson e) ∧
    (∀ e : AvatarEvent, StateEvent.serialize (.RoomAvatar e) = StateLeaf.toJson e) ∧
    (∀ e : CanonicalAliasEvent, StateEvent.serialize (.RoomCanonicalAlias e) = StateLeaf.toJson e) ∧
    (∀ e : CreateEvent, StateEvent.serialize (.RoomCreate e) = StateLeaf.toJson e) ∧
    (∀ e : GuestAccessEvent, StateEvent.serialize (.RoomGuestAccess e) = StateLeaf.toJson e) ∧
    (∀ e : HistoryVisibilityEvent, StateEvent.serialize (.RoomHistoryVisibility e) = StateLeaf.toJson e) ∧
    (∀ e : JoinRulesEvent, StateEvent.serialize (.RoomJoinRules e) = StateLeaf.toJson e) ∧
    (∀ e : MemberEvent, StateEvent.serialize (.RoomMember e) = StateLeaf.toJson e) ∧
    (∀ e : NameEvent, StateEvent.serialize (.RoomName e) = StateLeaf.toJson e) ∧
    (∀ e : PowerLevelsEvent, StateEvent.serialize (.RoomPowerLevels e) = StateLeaf.toJson e) ∧
    (∀ e : ThirdPartyInviteEvent, StateEvent.serialize (.RoomThirdPartyInvite e) = StateLeaf.toJson e) ∧
    (∀ e : TopicEvent, StateEvent.serialize (.RoomTopic e) = StateLeaf.toJson e) ∧
    (∀ e : CustomStateEvent, StateEvent.serialize (.CustomState e) = StateLeaf.toJson e) := by
  repeat' apply And.intro
  all_goals exact fun e => rfl

/-- Counterexample to C8 as stated: the input
`{"type":"m.unknown.bar","content":{}}` decoded as `RoomEvent` does not yield
the `CustomRoom` member; the custom-room structural parse fails on the absent
`event_id`, so decode errors. -/
theorem scenarioC_roomEvent_errors :
    RoomEvent.deserialize (.obj [("type", .str "m.unknown.bar"), ("content", .obj [])]) =
      .error (.custom "missing field event_id") := rfl

/-- C8 (amended): `{"type":"m.unknown.bar","content":{}}` decodes as `Event`
to the `Custom` (basic) member; decoded as `RoomEvent` the classification
selects the custom-room path (there being no basic fallback and no
`state_key`), but the subsequent `CustomRoomEvent` parse fails because
`event_id` (and `room_id`, `sender`) are absent, so decode errors rather than
yielding the `CustomRoom` member. -/
theorem scenarioC_classification :
    Event.deserialize (.obj [("type", .str "m.unknown.bar"), ("content", .obj [])]) =
      .ok (.Custom ⟨.obj [], .Custom "m.unknown.bar"⟩) ∧
    RoomEvent.deserialize (.obj [("type", .str "m.unknown.bar"), ("content", .obj [])]) =
      wrapLeaf (RoomLeaf.fromJson (.obj [("type", .str "m.unknown.bar"), ("content", .obj [])]))
        RoomEvent.CustomRoom ∧
    RoomLeaf.fromJson (.obj [("type", .str "m.unknown.bar"), ("content", .obj [])]) =
      .error "missing field event_id" :=
  ⟨rfl, rfl, rfl⟩

/-- Counterexample to C9 as stated: the receipt leaf shape (`ReceiptEvent` in
`src/receipt.rs`) requires a `room_id` field, so its record does not carry
only `content` and `type`; decoding a receipt-shaped value lacking `room_id`
fails. -/
theorem receipt_requires_room_id :
    ReceiptEvent.fromJson (.obj [("type", .str "m.receipt"), ("content", .obj [])]) =
      .error "missing field room_id" := rfl

/-- C9 (amended): of the four discriminators `RoomEvent` decode rejects,
presence, tag and typing have basic-tier leaf shapes requiring only `content`
and `type` (their parse succeeds on any input carrying those two fields and
consults nothing else), while the receipt leaf shape additionally requires
`room_id` — and none of the four requires a `sender` field (a receipt value
without `sender` parses). -/
theorem rejected_discriminator_leaf_fields (v c tv : JValue) (et : EventType)
    (hc : v.get "content" = some c) (ht : v.get "type" = some tv)
    (he : EventType.fromJson tv = .ok et) :
    BasicLeaf.fromJson v = .ok ⟨c, et⟩ ∧
    (∀ v2 : JValue, v2.get "room_id" = none → (ReceiptEvent.fromJson v2).isOk = false) ∧
    ReceiptEvent.fromJson
        (.obj [("content", .obj []), ("type", .str "m.receipt"), ("room_id", .str "!r")]) =
      .ok ⟨[], .Receipt, "!r"⟩ := by
  refine ⟨?_, ?_, rfl⟩
  · simp [BasicLeaf.fromJson, getAny, getEventType, hc, ht, he]
  · intro v2 h2
    unfold ReceiptEvent.fromJson
    split
    · split
      · rfl
      · split
        · rfl
        · unfold getString
          rw [h2]
          rfl
    · rfl
    · rfl

/-- Witness for C9 (amended) at the concrete input
`{"content":{},"type":"m.presence"}`. -/
theorem rejected_discriminator_leaf_fields_witness :
    BasicLeaf.fromJson (.obj [("content", .obj []), ("type", .str "m.presence")]) =
      .ok ⟨.obj [], .Presence⟩ :=
  (rejected_discriminator_leaf_fields
    (.obj [("content", .obj []), ("type", .str "m.presence")])
    (.obj []) (.str "m.presence") .Presence rfl rfl rfl).1

/-- Field lookup of `content` on an encoded basic-tier record. -/
theorem basic_get_content (e : BasicLeaf) :
    (BasicLeaf.toJson e).get "content" = some e.content := by
  simp [BasicLeaf.toJson, JValue.get, lookupField]

/-- Field lookup of `type` on an encoded basic-tier record. -/
theorem basic_get_type (e : BasicLeaf) :
    (BasicLeaf.toJson e).get "type" = some e.event_type.toJson := by
  simp [BasicLeaf.toJson, JValue.get, lookupField]

/-- Field lookup of `content` on an encoded room-tier record. -/
theorem room_get_content (e : RoomLeaf) :
    (RoomLeaf.toJson e).get "content" = some e.content := by
  simp [RoomLeaf.toJson, JValue.get, lookupField]

/-- Field lookup of `type` on an encoded room-tier record. -/
theorem room_get_type (e : RoomLeaf) :
    (RoomLeaf.toJson e).get "type" = some e.event_type.toJson := by
  simp [RoomLeaf.toJson, JValue.get, lookupField]

/-- Field lookups of the room metadata on an encoded room-tier record. -/
theorem room_get_meta (e : RoomLeaf) :
    (RoomLeaf.toJson e).get "event_id" = some (.str e.event_id) ∧
    (RoomLeaf.toJson e).get "room_id" = some (.str e.room_id) ∧
    (RoomLeaf.toJson e).get "sender" = some (.str e.sender) := by
  refine ⟨?_, ?_, ?_⟩ <;> simp [RoomLeaf.toJson, JValue.get, lookupField]

/-- Field lookup of `content` on an encoded state-tier record. -/
theorem state_get_content (e : StateLeaf) :
    (StateLeaf.toJson e).get "content" = some e.content := by
  simp [StateLeaf.toJson, JValue.get, lookupField]

/-- Field lookup of `type` on an encoded state-tier record. -/
theorem state_get_type (e : StateLeaf) :
    (StateLeaf.toJson e).get "type" = some e.event_type.toJson := by
  simp [StateLeaf.toJson, JValue.get, lookupField]

/-- Field lookups of the metadata on an encoded state-tier record. -/
theorem state_get_meta (e : StateLeaf) :
    (StateLeaf.toJson e).get "event_id" = some (.str e.event_id) ∧
    (StateLeaf.toJson e).get "room_id" = some (.str e.room_id) ∧
    (StateLeaf.toJson e).get "sender" = some (.str e.sender) ∧
    (StateLeaf.toJson e).get "state_key" = some (.str e.state_key) := by
  refine ⟨?_, ?_, ?_, ?_⟩ <;> simp [StateLeaf.toJson, JValue.get, lookupField]

/-- Field lookup of `type` on an encoded receipt event. -/
theorem receipt_get_type (e : ReceiptEvent) :
    (ReceiptEvent.toJson e).get "type" = some e.event_type.toJson := by
  simp [ReceiptEvent.toJson, JValue.get, lookupField]

/-- A basic-tier record decodes back from its own encoding whenever its
discriminator survives the string round trip. -/
theorem basicLeaf_roundtrip (e : BasicLeaf)
    (h : EventType.fromStr e.event_type.toStr = e.event_type) :
    BasicLeaf.fromJson (BasicLeaf.toJson e) = .ok e := by
  unfold BasicLeaf.fromJson getAny getEventType
  simp [basic_get_content, basic_get_type, EventType.fromJson, EventType.toJson, h]

/-- A room-tier record decodes back from its own encoding whenever its
discriminator survives the string round trip. -/
theorem roomLeaf_roundtrip (e : RoomLeaf)
    (h : EventType.fromStr e.event_type.toStr = e.event_type) :
    RoomLeaf.fromJson (RoomLeaf.toJson e) = .ok e := by
  unfold RoomLeaf.fromJson getAny getEventType getString
  simp [room_get_content, room_get_type, (room_get_meta e).1, (room_get_meta e).2.1,
    (room_get_meta e).2.2, EventType.fromJson, EventType.toJson, h]

/-- A state-tier record decodes back from its own encoding whenever its
discriminator survives the string round trip. -/
theorem stateLeaf_roundtrip (e : StateLeaf)
    (h : EventType.fromStr e.event_type.toStr = e.event_type) :
    StateLeaf.fromJson (StateLeaf.toJson e) = .ok e := by
  unfold StateLeaf.fromJson getAny getEventType getString
  simp [state_get_content, state_get_type, (state_get_meta e).1, (state_get_meta e).2.1,
    (state_get_meta e).2.2.1, (state_get_meta e).2.2.2, EventType.fromJson,
    EventType.toJson, h]

/-- A receipt decodes back from its own encoding when its timestamp is in the
`u64` range (always true of values originating in the source type). -/
theorem receipt_entry_roundtrip (r : Receipt) (h : r.ts < 2 ^ 64) :
    Receipt.fromJson r.toJson = .ok r := by
  unfold Receipt.fromJson Receipt.toJson
  simp [JValue.get, lookupField]
  simpa using h

/-- The user-to-receipt map decodes back from its own encoding entrywise. -/
theorem parseUserReceipts_roundtrip (m : List (String × Receipt))
    (h : ∀ p ∈ m, p.2.ts < 2 ^ 64) :
    parseUserReceipts (m.map fun p => (p.1, p.2.toJson)) = .ok m := by
  induction m with
  | nil => rfl
  | cons p rest ih =>
    simp only [List.map_cons, parseUserReceipts]
    rw [receipt_entry_roundtrip p.2 (h p (List.mem_cons_self p rest))]
    rw [ih fun q hq => h q (List.mem_cons_of_mem p hq)]

/-- A `Receipts` record decodes back from its own encoding. -/
theorem receipts_roundtrip (r : Receipts) (h : ∀ p ∈ r.m_read, p.2.ts < 2 ^ 64) :
    Receipts.fromJson r.toJson = .ok r := by
  unfold Receipts.fromJson Receipts.toJson
  simp [JValue.get, lookupField, parseUserReceipts_roundtrip r.m_read h]

/-- The receipt content map decodes back from its own encoding entrywise. -/
theorem parseReceiptContent_roundtrip (m : List (String × Receipts))
    (h : ∀ p ∈ m, ∀ q ∈ p.2.m_read, q.2.ts < 2 ^ 64) :
    parseReceiptContent (m.map fun p => (p.1, p.2.toJson)) = .ok m := by
  induction m with
  | nil => rfl
  | cons p rest ih =>
    simp only [List.map_cons, parseReceiptContent]
    rw [receipts_roundtrip p.2 (h p (List.mem_cons_self p rest))]
    rw [ih fun q hq => h q (List.mem_cons_of_mem p hq)]

/-- A receipt event decodes back from its own encoding whenever its
discriminator survives the string round trip and all timestamps are within
the `u64` range. -/
theorem receiptEvent_roundtrip (e : ReceiptEvent)
    (hty : EventType.fromStr e.event_type.toStr = e.event_type)
    (h : ∀ p ∈ e.content, ∀ q ∈ p.2.m_read, q.2.ts < 2 ^ 64) :
    ReceiptEvent.fromJson (ReceiptEvent.toJson e) = .ok e := by
  unfold ReceiptEvent.fromJson ReceiptEvent.toJson getEventType getString
  simp [JValue.get, lookupField, parseReceiptContent_roundtrip e.content h,
    EventType.fromJson, EventType.toJson, hty, receipt_get_type]

/-- Whether a discriminator is one of the known catalog members (everything
except the `Custom` fallback). -/
def EventType.isKnown : EventType → Bool
  | .Custom _ => false
  | _ => true

/-- A known discriminator survives the encode-decode round trip. -/
theorem fromJson_toJson_known (et : EventType) (h : et.isKnown = true) :
    EventType.fromJson (EventType.toJson et) = .ok et := by
  cases et <;> first | rfl | simp [EventType.isKnown] at h

/-- The catalog of known leaf shape instances: one member per known
discriminator, carrying that discriminator's leaf record.  This is the
quantification domain of the round-trip property. -/
inductive KnownLeaf where
  | CallAnswer (event : AnswerEvent)
  | CallCandidates (event : CandidatesEvent)
  | CallHangup (event : HangupEvent)
  | CallInvite (event : InviteEvent)
  | Presence (event : PresenceEvent)
  | Receipt (event : ReceiptEvent)
  | RoomAliases (event : AliasesEvent)
  | RoomAvatar (event : AvatarEvent)
  | RoomCanonicalAlias (event : CanonicalAliasEvent)
  | RoomCreate (event : CreateEvent)
  | RoomGuestAccess (event : GuestAccessEvent)
  | RoomHistoryVisibility (event : HistoryVisibilityEvent)
  | RoomJoinRules (event : JoinRulesEvent)
  | RoomMember (event : MemberEvent)
  | RoomMessage (event : MessageEvent)
  | RoomName (event : NameEvent)
  | RoomPowerLevels (event : PowerLevelsEvent)
  | RoomRedaction (event : RedactionEvent)
  | RoomThirdPartyInvite (event : ThirdPartyInviteEvent)
  | RoomTopic (event : TopicEvent)
  | Tag (event : TagEvent)
  | Typing (event : TypingEvent)

/-- The conversion-layer injection of each known leaf into `Event` (every
known leaf is a legal `Event` member). -/
def KnownLeaf.intoEvent : KnownLeaf → Event
  | .CallAnswer e => .CallAnswer e
  | .CallCandidates e => .CallCandidates e
  | .CallHangup e => .CallHangup e
  | .CallInvite e => .CallInvite e
  | .Presence e => .Presence e
  | .Receipt e => .Receipt e
  | .RoomAliases e => .RoomAliases e
  | .RoomAvatar e => .RoomAvatar e
  | .RoomCanonicalAlias e => .RoomCanonicalAlias e
  | .RoomCreate e => .RoomCreate e
  | .RoomGuestAccess e => .RoomGuestAccess e
  | .RoomHistoryVisibility e => .RoomHistoryVisibility e
  | .RoomJoinRules e => .RoomJoinRules e
  | .RoomMember e => .RoomMember e
  | .RoomMessage e => .RoomMessage e
  | .RoomName e => .RoomName e
  | .RoomPowerLevels e => .RoomPowerLevels e
  | .RoomRedaction e => .RoomRedaction e
  | .RoomThirdPartyInvite e => .RoomThirdPartyInvite e
  | .RoomTopic e => .RoomTopic e
  | .Tag e => .Tag e
  | .Typing e => .Typing e

/-- The conversion-layer injection of each known leaf into `RoomEvent`, when
the leaf is a legal `RoomEvent` member (the basic-tier leaves are not). -/
def KnownLeaf.intoRoomEvent : KnownLeaf → Option RoomEvent
  | .CallAnswer e => some (.CallAnswer e)
  | .CallCandidates e => some (.CallCandidates e)
  | .CallHangup e => some (.CallHangup e)
  | .CallInvite e => some (.CallInvite e)
  | .Presence _ => none
  | .Receipt _ => none
  | .RoomAliases e => some (.RoomAliases e)
  | .RoomAvatar e => some (.RoomAvatar e)
  | .RoomCanonicalAlias e => some (.RoomCanonicalAlias e)
  | .RoomCreate e => some (.RoomCreate e)
  | .RoomGuestAccess e => some (.RoomGuestAccess e)
  | .RoomHistoryVisibility e => some (.RoomHistoryVisibility e)
  | .RoomJoinRules e => some (.RoomJoinRules e)
  | .RoomMember e => some (.RoomMember e)
  | .RoomMessage e => some (.RoomMessage e)
  | .RoomName e => some (.RoomName e)
  | .RoomPowerLevels e => some (.RoomPowerLevels e)
  | .RoomRedaction e => some (.RoomRedaction e)
  | .RoomThirdPartyInvite e => some (.RoomThirdPartyInvite e)
  | .RoomTopic e => some (.RoomTopic e)
  | .Tag _ => none
  | .Typing _ => none

/-- The conversion-layer injection of each known leaf into `StateEvent`, when
the leaf is a legal `StateEvent` member (only the state-tier leaves are). -/
def KnownLeaf.intoStateEvent : KnownLeaf → Option StateEvent
  | .RoomAliases e => some (.RoomAliases e)
  | .RoomAvatar e => some (.RoomAvatar e)
  | .RoomCanonicalAlias e => some (.RoomCanonicalAlias e)
  | .RoomCreate e => some (.RoomCreate e)
  | .RoomGuestAccess e => some (.RoomGuestAccess e)
  | .RoomHistoryVisibility e => some (.RoomHistoryVisibility e)
  | .RoomJoinRules e => some (.RoomJoinRules e)
  | .RoomMember e => some (.RoomMember e)
  | .RoomName e => some (.RoomName e)
  | .RoomPowerLevels e => some (.RoomPowerLevels e)
  | .RoomThirdPartyInvite e => some (.RoomThirdPartyInvite e)
  | .RoomTopic e => some (.RoomTopic e)
  | _ => none

/-- A known leaf instance is well formed when its own `type` field holds the
discriminator its shape is associated with (true of every value the decoder
itself can produce), and, for receipts, when every timestamp is within the
`u64` range the source type imposes. -/
def KnownLeaf.wellFormed : KnownLeaf → Bool
  | .CallAnswer e => decide (e.event_type = .CallAnswer)
  | .CallCandidates e => decide (e.event_type = .CallCandidates)
  | .CallHangup e => decide (e.event_type = .CallHangup)
  | .CallInvite e => decide (e.event_type = .CallInvite)
  | .Presence e => decide (e.event_type = .Presence)
  | .Receipt e => decide (e.event_type = .Receipt) &&
      e.content.all (fun p => p.2.m_read.all (fun q => decide (q.2.ts < 2 ^ 64)))
  | .RoomAliases e => decide (e.event_type = .RoomAliases)
  | .RoomAvatar e => decide (e.event_type = .RoomAvatar)
  | .RoomCanonicalAlias e => decide (e.event_type = .RoomCanonicalAlias)
  | .RoomCreate e => decide (e.event_type = .RoomCreate)
  | .RoomGuestAccess e => decide (e.event_type = .RoomGuestAccess)
  | .RoomHistoryVisibility e => decide (e.event_type = .RoomHistoryVisibility)
  | .RoomJoinRules e => decide (e.event_type = .RoomJoinRules)
  | .RoomMember e => decide (e.event_type = .RoomMember)
  | .RoomMessage e => decide (e.event_type = .RoomMessage)
  | .RoomName e => decide (e.event_type = .RoomName)
  | .RoomPowerLevels e => decide (e.event_type = .RoomPowerLevels)
  | .RoomRedaction e => decide (e.event_type = .RoomRedaction)
  | .RoomThirdPartyInvite e => decide (e.event_type = .RoomThirdPartyInvite)
  | .RoomTopic e => decide (e.event_type = .RoomTopic)
  | .Tag e => decide (e.event_type = .Tag)
  | .Typing e => decide (e.event_type = .Typing)

/-- C5 (amended): for every known leaf shape instance whose own discriminator
field matches the discriminator associated with its shape (and, for receipts,
whose timestamps are within the `u64` range the source type imposes),
encoding at each container type of which it is a legal member and then
decoding the result at that same container type succeeds and yields the
container member wrapping a value structurally equal to the original. -/
theorem known_leaf_roundtrip (l : KnownLeaf) (h : l.wellFormed = true) :
    Event.deserialize (Event.serialize l.intoEvent) = .ok l.intoEvent ∧
    (∀ re : RoomEvent, l.intoRoomEvent = some re →
      RoomEvent.deserialize (RoomEvent.serialize re) = .ok re) ∧
    (∀ se : StateEvent, l.intoStateEvent = some se →
      StateEvent.deserialize (StateEvent.serialize se) = .ok se) := by
  cases l
  all_goals rename_i e
  all_goals simp only [KnownLeaf.wellFormed] at h
  all_goals first
    | (have het := of_decide_eq_true h
       have hrt := stateLeaf_roundtrip e (by rw [het]; decide)
       refine ⟨?_, ?_, ?_⟩
       · simp only [KnownLeaf.intoEvent, Event.serialize]
         unfold Event.deserialize
         rw [state_get_type, het]
         simp only [fromJson_toJson_known, EventType.isKnown, wrapLeaf, hrt]
       · intro re hre
         simp only [KnownLeaf.intoRoomEvent, Option.some.injEq] at hre
         subst hre
         simp only [RoomEvent.serialize]
         unfold RoomEvent.deserialize
         rw [state_get_type, het]
         simp only [fromJson_toJson_known, EventType.isKnown, wrapLeaf, hrt]
       · intro se hse
         simp only [KnownLeaf.intoStateEvent, Option.some.injEq] at hse
         subst hse
         simp only [StateEvent.serialize]
         unfold StateEvent.deserialize
         rw [state_get_type, het]
         simp only [fromJson_toJson_known, EventType.isKnown, wrapLeaf, hrt])
    | (have het := of_decide_eq_true h
       have hrt := roomLeaf_roundtrip e (by rw [het]; decide)
       refine ⟨?_, ?_, ?_⟩
       · simp only [KnownLeaf.intoEvent, Event.serialize]
         unfold Event.deserialize
         rw [room_get_type, het]
         simp only [fromJson_toJson_known, EventType.isKnown, wrapLeaf, hrt]
       · intro re hre
         simp only [KnownLeaf.intoRoomEvent, Option.some.injEq] at hre
         subst hre
         simp only [RoomEvent.serialize]
         unfold RoomEvent.deserialize
         rw [room_get_type, het]
         simp only [fromJson_toJson_known, EventType.isKnown, wrapLeaf, hrt]
       · intro se hse
         exact Option.noConfusion hse)
    | (have het := of_decide_eq_true h
       have hrt := basicLeaf_roundtrip e (by rw [het]; decide)
       refine ⟨?_, ?_, ?_⟩
       · simp only [KnownLeaf.intoEvent, Event.serialize]
         unfold Event.deserialize
         rw [basic_get_type, het]
         simp only [fromJson_toJson_known, EventType.isKnown, wrapLeaf, hrt]
       · intro re hre
         exact Option.noConfusion hre
       · intro se hse
         exact Option.noConfusion hse)
    | (rw [Bool.and_eq_true] at h
       have het := of_decide_eq_true h.1
       have hb : ∀ p ∈ e.content, ∀ q ∈ p.2.m_read, q.2.ts < 2 ^ 64 := by
         have h2 := h.2
         simp only [List.all_eq_true, decide_eq_true_eq] at h2
         exact h2
       have hrt := receiptEvent_roundtrip e (by rw [het]; decide) hb
       refine ⟨?_, ?_, ?_⟩
       · simp only [KnownLeaf.intoEvent, Event.serialize]
         unfold Event.deserialize
         rw [receipt_get_type, het]
         simp only [fromJson_toJson_known, EventType.isKnown, wrapLeaf, hrt]
       · intro re hre
         exact Option.noConfusion hre
       · intro se hse
         exact Option.noConfusion hse)

/-- Witness for C5 (amended) at a concrete well-formed *m.room.topic* leaf. -/
theorem known_leaf_roundtrip_witness :
    KnownLeaf.wellFormed (.RoomTopic topicStateLeaf) = true ∧
    Event.deserialize (Event.serialize (KnownLeaf.RoomTopic topicStateLeaf).intoEvent) =
      .ok (KnownLeaf.RoomTopic topicStateLeaf).intoEvent :=
  ⟨by decide, (known_leaf_roundtrip (.RoomTopic topicStateLeaf) (by decide)).1⟩

/-- Counterexample to C5 as stated: a receipt leaf instance whose own
discriminator field holds *m.typing* (constructible, since the record's
`type` field is any discriminator value) encodes with `"type":"m.typing"`,
so decoding the encoding at `Event` selects the typing member — the round
trip does not reproduce the receipt member. -/
theorem receipt_mismatched_type_breaks_roundtrip :
    Event.deserialize (Event.serialize (Event.Receipt ⟨[], .Typing, "!r"⟩)) ≠
      .ok (Event.Receipt ⟨[], .Typing, "!r"⟩) := by
  intro hcontra
  rw [show Event.deserialize (Event.serialize (Event.Receipt ⟨[], .Typing, "!r"⟩)) =
      .ok (Event.Typing ⟨.obj [], .Typing⟩) from rfl] at hcontra
  exact Event.noConfusion (Except.ok.inj hcontra)

end RumaEvents
